import Mathlib

/-!
Verification development for the tinyagent repository (Go, `main.go`).

The Go source is shallowly embedded: pure helpers become Lean functions,
filesystem access is modelled by an explicit `FS` value together with a log of
performed filesystem operations (`FSOp`), and the HTTP chat endpoint is
modelled by a list of prescripted `HttpEvent` responses.  Byte strings are
`List Nat` (each entry one byte), Go `string` values that claims inspect at
byte level are `List Char` over ASCII-aligned positions, machine integers are
`Int`/`Nat` with 64-bit two's-complement wrapping (`wrap64`) and `int64`
clamping (`goAtoi`) made explicit where Go's machine arithmetic can overflow.
-/

namespace TinyAgent

/-! ## Go `strings`/`unicode` helpers used by `sendChatRequest` -/

/-- Embedding of Go `unicode.IsSpace` (the White_Space property). -/
def goIsSpace (c : Char) : Bool :=
  [9, 10, 11, 12, 13, 32, 0x85, 0xA0, 0x1680, 0x2028, 0x2029, 0x202F,
    0x205F, 0x3000].contains c.toNat
  || (0x2000 ≤ c.toNat && c.toNat ≤ 0x200A)

/-- Embedding of Go `strings.TrimSpace` over rune lists. -/
def trimSpace (l : List Char) : List Char :=
  ((l.dropWhile goIsSpace).reverse.dropWhile goIsSpace).reverse

/-- Embedding of Go `strings.LastIndex`: index of the last occurrence of
`pat` in `s`, `none` when absent.  Positions are rune positions; every
occurrence of the ASCII marker starts and ends at character boundaries, so
these coincide with Go byte offsets relative to the marker. -/
def lastIndexOf (s pat : List Char) : Option Nat :=
  ((List.range (s.length + 1)).filter (fun i => pat.isPrefixOf (s.drop i))).getLast?

/-- The terminating marker from `sendChatRequest` in `main.go`. -/
def thinkMarker : List Char := "</think>".data

/-- Sentinel thoughts value returned when the marker is absent (`main.go`). -/
def noThoughts : List Char := "This model provided no thoughts.".data

/-- Result of the thought/content split performed by `sendChatRequest`. -/
structure SplitResult where
  content : List Char
  thoughts : List Char
deriving DecidableEq

/-- Embedding of the thought-splitting block of `sendChatRequest`
(`main.go` lines 186-195): on a hit at byte index `i`, the thoughts are
`TrimSpace(content[:i+7])` and the content becomes `content[i+8:]`. -/
def splitThoughts (content : List Char) : SplitResult :=
  match lastIndexOf content thinkMarker with
  | some i => { content := content.drop (i + 8), thoughts := trimSpace (content.take (i + 7)) }
  | none => { content := content, thoughts := noThoughts }

/-- String-typed wrapper of `splitThoughts`, returning (content, thoughts). -/
def splitThoughtsStr (s : String) : String × String :=
  let r := splitThoughts s.data
  (String.mk r.content, String.mk r.thoughts)

/-! ## Go `path/filepath` helpers used by `runTool`

`runTool` guards both tools with `filepath.IsLocal`.  `IsLocal` (unix) and
`Clean` are embedded below over rune lists split on `/`. -/

/-- Split a rune list on a separator, mirroring Go `strings.Cut` iteration
(and Lean `String.splitOn`): the empty list yields one empty segment. -/
def splitCharList (sep : Char) : List Char → List (List Char)
  | [] => [[]]
  | c :: rest =>
    let r := splitCharList sep rest
    if c = sep then [] :: r
    else
      match r with
      | [] => [[c]]
      | h :: t => (c :: h) :: t

/-- Embedding of Go `filepath.IsAbs` on unix: absolute iff it starts with `/`. -/
def goIsAbs (p : String) : Bool :=
  match p.data with
  | '/' :: _ => true
  | _ => false

/-- The element-processing loop of Go `filepath.Clean`, over path segments:
skip empty and `.` segments, resolve `..` against the output stack. -/
def cleanSegs (rooted : Bool) : List (List Char) → List (List Char) → List (List Char)
  | [], out => out
  | seg :: rest, out =>
    if seg = ([] : List Char) ∨ seg = ['.'] then cleanSegs rooted rest out
    else if seg = ['.', '.'] then
      if out ≠ [] ∧ out.getLast? ≠ some ['.', '.'] then cleanSegs rooted rest out.dropLast
      else if rooted then cleanSegs rooted rest out
      else cleanSegs rooted rest (out ++ [['.', '.']])
    else cleanSegs rooted rest (out ++ [seg])

/-- Join segments with `/` separators. -/
def joinSlash : List (List Char) → List Char
  | [] => []
  | [s] => s
  | s :: rest => s ++ '/' :: joinSlash rest

/-- Embedding of Go `filepath.Clean` (unix) over rune lists. -/
def goCleanList (l : List Char) : List Char :=
  match l with
  | [] => ['.']
  | _ =>
    let rooted := match l with | '/' :: _ => true | _ => false
    let out := cleanSegs rooted (splitCharList '/' l) []
    let joined := joinSlash out
    if rooted then
      match joined with
      | [] => ['/']
      | _ => '/' :: joined
    else
      match joined with
      | [] => ['.']
      | _ => joined

/-- Embedding of Go `filepath.Clean` (unix). -/
def goClean (p : String) : String := String.mk (goCleanList p.data)

/-- Embedding of Go `filepath.IsLocal` (unix `isLocal`): non-absolute,
non-empty, and — after `Clean`, when the path has `.`/`..` segments — not
`..` and not starting with `../`.  A purely lexical check. -/
def goIsLocal (p : String) : Bool :=
  if goIsAbs p || p == "" then false
  else
    let segs := splitCharList '/' p.data
    let hasDots := segs.any (fun s => s == ['.'] || s == ['.', '.'])
    let cleaned := if hasDots then goCleanList p.data else p.data
    !(cleaned == ['.', '.'] || (['.', '.', '/']).isPrefixOf cleaned)

/-- Embedding of Go `filepath.Join` for two elements: non-empty elements
joined with `/`, then `Clean`; all-empty input stays empty. -/
def goJoin (a b : String) : String :=
  if a == "" && b == "" then ""
  else if a == "" then goClean b
  else if b == "" then goClean a
  else goClean (a ++ "/" ++ b)

/-- A path contains a parent-traversal segment (`..`), the premise used by
the spec's sandbox property. -/
def hasParentSegment (p : String) : Bool :=
  (splitCharList '/' p.data).contains ['.', '.']

/-! ## Go `unicode/utf8` and `strconv` helpers -/

/-- A UTF-8 continuation byte (0x80-0xBF). -/
def contByte (b : Nat) : Bool := decide (0x80 ≤ b ∧ b ≤ 0xBF)

/-- Embedding of Go `utf8.Valid`: the byte list is a sequence of valid UTF-8
encodings (RFC 3629: no surrogates, no overlong forms, max U+10FFFF). -/
def utf8Valid : List Nat → Bool
  | [] => true
  | b :: rest =>
    if b ≤ 0x7F then utf8Valid rest
    else if 0xC2 ≤ b ∧ b ≤ 0xDF then
      match rest with
      | b1 :: r1 => contByte b1 && utf8Valid r1
      | [] => false
    else if b = 0xE0 then
      match rest with
      | b1 :: b2 :: r2 => decide (0xA0 ≤ b1 ∧ b1 ≤ 0xBF) && contByte b2 && utf8Valid r2
      | _ => false
    else if (0xE1 ≤ b ∧ b ≤ 0xEC) ∨ (0xEE ≤ b ∧ b ≤ 0xEF) then
      match rest with
      | b1 :: b2 :: r2 => contByte b1 && contByte b2 && utf8Valid r2
      | _ => false
    else if b = 0xED then
      match rest with
      | b1 :: b2 :: r2 => decide (0x80 ≤ b1 ∧ b1 ≤ 0x9F) && contByte b2 && utf8Valid r2
      | _ => false
    else if b = 0xF0 then
      match rest with
      | b1 :: b2 :: b3 :: r3 =>
        decide (0x90 ≤ b1 ∧ b1 ≤ 0xBF) && contByte b2 && contByte b3 && utf8Valid r3
      | _ => false
    else if 0xF1 ≤ b ∧ b ≤ 0xF3 then
      match rest with
      | b1 :: b2 :: b3 :: r3 => contByte b1 && contByte b2 && contByte b3 && utf8Valid r3
      | _ => false
    else if b = 0xF4 then
      match rest with
      | b1 :: b2 :: b3 :: r3 =>
        decide (0x80 ≤ b1 ∧ b1 ≤ 0x8F) && contByte b2 && contByte b3 && utf8Valid r3
      | _ => false
    else false

/-- Digits-only parse helper for `goAtoi`: `none` on the empty list or any
non-digit character. -/
def parseDigits (l : List Char) : Option Nat :=
  match l with
  | [] => none
  | _ =>
    l.foldl
      (fun acc c =>
        match acc with
        | none => none
        | some n => if c.isDigit then some (n * 10 + (c.toNat - 48)) else none)
      (some 0)

/-- Embedding of Go `strconv.Atoi` on a 64-bit platform, as used in
`runTool` where the error return is discarded: a syntax error yields 0, an
in-range numeric input yields its exact value, and an out-of-range numeric
input yields the nearest `int64` bound (`ParseInt` returns the clamped value
alongside the discarded `ErrRange`). -/
def goAtoi (s : String) : Int :=
  match s.data with
  | [] => 0
  | c :: rest =>
    if c = '-' then
      (parseDigits rest).elim 0 (fun n =>
        if (n : Int) > 2 ^ 63 then -(2 ^ 63) else -(n : Int))
    else if c = '+' then
      (parseDigits rest).elim 0 (fun n =>
        if (n : Int) ≥ 2 ^ 63 then 2 ^ 63 - 1 else (n : Int))
    else
      (parseDigits (c :: rest)).elim 0 (fun n =>
        if (n : Int) ≥ 2 ^ 63 then 2 ^ 63 - 1 else (n : Int))

/-! ## Filesystem model

`runTool` and `fileType` touch the filesystem through `os.Open`, `os.ReadDir`
and section reads.  The filesystem is a value (`FS`) and every access is
logged as an `FSOp`, so theorems can state that no filesystem read happened. -/

/-- One immediate child of a directory, as returned by Go `os.ReadDir`. -/
structure DirEntry where
  name : String
  isDir : Bool
deriving DecidableEq

/-- Filesystem contents: regular files as byte lists, directories as entry
lists (Go `os.ReadDir` returns entries sorted by name; the stored order is
that order). -/
structure FS where
  files : List (String × List Nat)
  dirs : List (String × List DirEntry)
deriving DecidableEq

/-- File lookup (Go `os.Open` on a regular file). -/
def FS.findFile (fs : FS) (p : String) : Option (List Nat) := fs.files.lookup p

/-- Directory lookup (Go `os.ReadDir`). -/
def FS.findDir (fs : FS) (p : String) : Option (List DirEntry) := fs.dirs.lookup p

/-- A logged filesystem access performed by a tool. -/
inductive FSOp where
  | readDir (path : String)
  | openFile (path : String)
deriving DecidableEq

/-- Embedding of `fileType` (`main.go` lines 200-217) plus the log of its
filesystem accesses.  A failed `os.Open` yields the open-error text (modelled
with the unix "no such file or directory" message); on an empty file Go
`File.Read` returns `(0, io.EOF)`, so the read-error branch is taken; else the
first 512 bytes decide text vs binary via `utf8.Valid`. -/
def fileType (fs : FS) (path : String) : String × List FSOp :=
  match fs.findFile path with
  | none =>
    ("Error opening file: open " ++ path ++ ": no such file or directory", [.openFile path])
  | some contents =>
    if contents.length = 0 then ("Error reading file header: EOF", [.openFile path])
    else if utf8Valid (contents.take 512) then ("text", [.openFile path])
    else ("binary", [.openFile path])

/-- The sandbox-violation error text produced by both tool branches of
`runTool`. -/
def permErr (path : String) : String :=
  "Permanent Error: Path " ++ path ++ " is outside of current working directory"

/-- Tool arguments after JSON decoding: Go `map[string]string` lookup, empty
string for a missing key.  (The `json.Unmarshal` of the raw argument text is
I/O glue; `runTool` consumes only this map.) -/
def getParam (params : List (String × String)) (k : String) : String :=
  (params.lookup k).getD ""

/-- Two's-complement wrap into the signed 64-bit range, the behavior of Go
`int` arithmetic on a 64-bit platform. -/
def wrap64 (x : Int) : Int := (x + 2 ^ 63) % 2 ^ 64 - 2 ^ 63

/-- Embedding of `io.ReadAll(io.NewSectionReader(file, int64(start*2000), 2000))`
(`main.go` line 269): the offset `start*2000` is computed in 64-bit machine
arithmetic, so it wraps; a negative wrapped offset makes `ReadAt` fail and,
the error being discarded by `ReadAll`'s caller, yields empty content;
otherwise the window is the bytes `[off, off+2000)` truncated at end of
file. -/
def sectionRead (contents : List Nat) (start : Int) : List Nat :=
  if wrap64 (start * 2000) < 0 then []
  else (contents.drop (wrap64 (start * 2000)).toNat).take 2000

/-- Append a value to the group `k` of an association list, creating the
group at the end on first use (insertion order; Go iterates the map in an
unspecified order, and no claim depends on the group order). -/
def insertGroup : List (String × List String) → String → String → List (String × List String)
  | [], k, v => [(k, [v])]
  | (k0, vs) :: rest, k, v =>
    if k0 = k then (k0, vs ++ [v]) :: rest else (k0, vs) :: insertGroup rest k v

/-- Format a Go `[]string` the way `fmt.Sprintf` with `%s` does. -/
def goSliceFormat (l : List String) : String :=
  "[" ++ String.intercalate " " l ++ "]"

/-- The `browse_directory` branch of `runTool` (`main.go` lines 225-250):
sandbox check, `os.ReadDir`, classification of every entry via `fileType`
(called for directories too), grouped bulleted output. -/
def browseDir (fs : FS) (params : List (String × String)) :
    Except String String × List FSOp :=
  let path := getParam params "path"
  if goIsLocal path then
    match fs.findDir path with
    | none =>
      (.error ("Error reading directory: open " ++ path ++ ": no such file or directory"),
       [.readDir path])
    | some entries =>
      let step := fun (acc : List (String × List String) × List FSOp) (e : DirEntry) =>
        let fullPath := goJoin path e.name
        let ft := fileType fs fullPath
        let key := if e.isDir then "subdirectories" else ft.1 ++ " files"
        (insertGroup acc.1 key ("`" ++ fullPath ++ "`"), acc.2 ++ ft.2)
      let folded := entries.foldl step ([], [.readDir path])
      let parts := folded.1.map (fun g => "- " ++ g.1 ++ ": " ++ goSliceFormat g.2)
      (.ok ("analyze_path `" ++ path ++ "` results:\n" ++ String.intercalate "\n" parts),
       folded.2)
  else (.error (permErr path), [])

/-- The `study_file_contents` branch of `runTool` (`main.go` lines 252-282):
page parse, sandbox check, `fileType` gate, 2000-byte section read, and the
summarization sub-call.  The sub-call to `sendChatRequest` (system prompt +
file window + question, no tools) is abstracted as the oracle `llm` from the
window bytes and the question to the answer or an error. -/
def studyFile (fs : FS) (llm : List Nat → String → Except String String)
    (params : List (String × String)) : Except String String × List FSOp :=
  let start := goAtoi (getParam params "page")
  let path := getParam params "path"
  if goIsLocal path then
    let ft := fileType fs path
    if ft.1 = "text" then
      match fs.findFile path with
      | none =>
        (.error ("Error opening file: open " ++ path ++ ": no such file or directory"),
         ft.2 ++ [.openFile path])
      | some contents =>
        let window := sectionRead contents start
        match llm window (getParam params "question") with
        | .error e => (.error ("Error analyzing file: " ++ e), ft.2 ++ [.openFile path])
        | .ok ans =>
          (.ok ("study_file_contents " ++ path ++ " results\nQuestion: " ++
             getParam params "question" ++ "\nAnswer: " ++ ans),
           ft.2 ++ [.openFile path])
    else (.error ("Not a text file (detected: " ++ ft.1 ++ ")"), ft.2)
  else (.error (permErr path), [])

/-- Embedding of `runTool` (`main.go` lines 220-282): the `browse_directory`
branch guards on the name; everything else falls through to the
`study_file_contents` logic. -/
def runTool (fs : FS) (llm : List Nat → String → Except String String)
    (name : String) (params : List (String × String)) :
    Except String String × List FSOp :=
  if name = "browse_directory" then browseDir fs params
  else studyFile fs llm params

/-! ## Chat-completion client and orchestration loop -/

/-- The nested function field of a tool call (`main.go` `ToolCall.Function`). -/
structure FuncCall where
  name : String
  arguments : String
deriving DecidableEq

/-- Embedding of the Go `ToolCall` struct. -/
structure ToolCall where
  id : String
  type : String
  function : FuncCall
deriving DecidableEq

/-- Embedding of the Go `ChatMessage` struct. -/
structure ChatMessage where
  role : String
  content : String
  toolCalls : List ToolCall
  toolCallID : String
deriving DecidableEq

/-- One choice of the decoded response body. -/
structure Choice where
  message : ChatMessage
deriving DecidableEq

/-- Token usage of the decoded response body. -/
structure Usage where
  promptTokens : Nat
  completionTokens : Nat
deriving DecidableEq

/-- The decoded response body consulted on HTTP 200. -/
structure DecodedBody where
  choices : List Choice
  usage : Usage
deriving DecidableEq

/-- Outcome of JSON-decoding the response body. -/
inductive DecodeOutcome where
  | fail (msg : String)
  | ok (body : DecodedBody)
deriving DecidableEq

/-- One observable answer of the HTTP endpoint to `http.DefaultClient.Do`:
either a network-level error or a status (with its status text and, for 200,
the decode outcome of the body). -/
inductive HttpEvent where
  | netErr (msg : String)
  | resp (statusCode : Nat) (statusText : String) (body : DecodeOutcome)
deriving DecidableEq

/-- Observable outcome of one `sendChatRequest` call: how many HTTP requests
were issued, how many fixed-interval sleeps happened, and the returned
message/thoughts pair or error. -/
structure SendOutcome where
  requests : Nat
  sleeps : Nat
  result : Except String (ChatMessage × String)

/-- Embedding of `sendChatRequest` (`main.go` lines 132-196) over a list of
prescripted endpoint answers: network errors surface immediately; 429 sleeps
one fixed interval and retries; any other non-200 status fails immediately
with `API error:` and the status text; on 200 the body is decoded, an empty
choice list is `no response`, and the first choice is returned with its
content split at the thought marker.  An exhausted event list models the call
still blocking on the wire and is unreachable in every theorem below. -/
def sendChatRequest : List HttpEvent → SendOutcome
  | [] => { requests := 0, sleeps := 0, result := .error "blocked awaiting a response" }
  | .netErr e :: _ => { requests := 1, sleeps := 0, result := .error e }
  | .resp code text body :: rest =>
    if code = 429 then
      let o := sendChatRequest rest
      { requests := o.requests + 1, sleeps := o.sleeps + 1, result := o.result }
    else if code ≠ 200 then
      { requests := 1, sleeps := 0, result := .error ("API error: " ++ text) }
    else
      match body with
      | .fail e => { requests := 1, sleeps := 0, result := .error ("failed to decode response: " ++ e) }
      | .ok d =>
        match d.choices with
        | [] => { requests := 1, sleeps := 0, result := .error "no response" }
        | c :: _ =>
          let p := splitThoughtsStr c.message.content
          { requests := 1, sleeps := 0,
            result := .ok ({ c.message with content := p.1 }, p.2) }

/-- The text appended for one tool call by the loop body (`main.go` lines
73-77): the dispatcher's result, or its error prefixed with `Error: `.  The
dispatcher is abstracted as `rt` from tool name and raw arguments. -/
def dispatchResult (rt : String → String → Except String String) (tc : ToolCall) : String :=
  match rt tc.function.name tc.function.arguments with
  | .ok res => res
  | .error e => "Error: " ++ e

/-- Embedding of the tool-execution loop (`main.go` lines 72-86): one
tool-role message per tool call, in order, carrying the call's id. -/
def execToolCalls (rt : String → String → Except String String)
    (tcs : List ToolCall) : List ChatMessage :=
  tcs.map (fun tc =>
    { role := "tool", content := dispatchResult rt tc, toolCalls := [], toolCallID := tc.id })

/-- The mutable state of the orchestration loop: the mission flag value and
the conversation transcript. -/
structure LoopState where
  mission : String
  messages : List ChatMessage
deriving DecidableEq

/-- Embedding of one successful iteration of the main loop after the
planning call returned `msg` (`main.go` lines 70-92): append the assistant
message, run every tool call appending one tool message each, then clear the
mission iff the content is non-empty. -/
def loopBody (rt : String → String → Except String String)
    (st : LoopState) (msg : ChatMessage) : LoopState :=
  { mission := if msg.content = "" then st.mission else "",
    messages := (st.messages ++ [msg]) ++ execToolCalls rt msg.toolCalls }

/-- What one planning call leads to: `exitProcess` models the `return`
statement in `main` (which leaves `main` and terminates the process), and
`continueLoop` the next state of the running loop. -/
inductive LoopOutcome where
  | exitProcess (printedError : String)
  | continueLoop (st : LoopState)
deriving DecidableEq

/-- Embedding of the planning-call handling in `main` (`main.go` lines
64-92): a planning error prints and returns from `main`; a success runs the
loop body. -/
def planningStep (rt : String → String → Except String String)
    (st : LoopState) (resp : Except String ChatMessage) : LoopOutcome :=
  match resp with
  | .error e => .exitProcess e
  | .ok msg => .continueLoop (loopBody rt st msg)

/-- Decidable equality of `Except` results, so concrete tool outcomes can be
settled by `decide`. -/
instance {ε α : Type} [DecidableEq ε] [DecidableEq α] : DecidableEq (Except ε α) := fun a b =>
  match a, b with
  | .error e, .error f => decidable_of_iff (e = f) (by simp)
  | .error _, .ok _ => isFalse (by simp)
  | .ok _, .error _ => isFalse (by simp)
  | .ok u, .ok v => decidable_of_iff (u = v) (by simp)

/-! ## Concrete instances used by counterexamples and witnesses -/

/-- Bytes of the five-byte ASCII file used in concrete scenarios. -/
def helloBytes : List Nat := "hello".data.map Char.toNat

/-- A filesystem with one small text file in the working directory. -/
def fsF : FS :=
  { files := [("f.txt", helloBytes)], dirs := [(".", [{ name := "f.txt", isDir := false }])] }

/-- A filesystem holding only an empty file. -/
def fsEmptyFile : FS := { files := [("empty.txt", [])], dirs := [] }

/-- The empty filesystem. -/
def emptyFS : FS := { files := [], dirs := [] }

/-- A summarization oracle that always answers `ANSWER`. -/
def llmConst : List Nat → String → Except String String := fun _ _ => .ok "ANSWER"

/-- A summarization oracle for scenarios in which it must never be reached. -/
def noLLM : List Nat → String → Except String String := fun _ _ => .error "unused"

/-! ## C1 — path sandbox -/

/-- C1 counterexample: the path `a/../b` contains a parent-traversal segment,
yet `browse_directory` does not return the permanent sandbox error naming it
and performs a filesystem read of that path — `filepath.IsLocal` admits the
path because it stays inside the working directory lexically. -/
theorem C1_traversal_read_cex :
    hasParentSegment "a/../b" = true ∧
    runTool emptyFS noLLM "browse_directory" [("path", "a/../b")] =
      (.error "Error reading directory: open a/../b: no such file or directory",
       [FSOp.readDir "a/../b"]) ∧
    (runTool emptyFS noLLM "browse_directory" [("path", "a/../b")]).2 ≠ ([] : List FSOp) := by
  decide

/-- C1 (amended): for every path argument rejected by the lexical locality
check `filepath.IsLocal` — absolute, empty, or cleaning to a path that leaves
the working directory through leading `..` — every `runTool` invocation
(both tools, and any other requested name) returns the permanent error naming
the offending path and performs no filesystem read. -/
theorem C1_sandbox_lexical (fs : FS) (llm : List Nat → String → Except String String)
    (name : String) (params : List (String × String))
    (h : goIsLocal (getParam params "path") = false) :
    runTool fs llm name params = (.error (permErr (getParam params "path")), []) := by
  unfold runTool browseDir studyFile
  split
  · simp [h]
  · simp [h]

/-- C1 witness: the parent-traversal path `../secrets` is rejected by
`study_file_contents` with no filesystem access. -/
theorem C1_sandbox_lexical_witness :
    runTool emptyFS noLLM "study_file_contents" [("path", "../secrets")] =
      (.error (permErr (getParam [("path", "../secrets")] "path")), []) :=
  C1_sandbox_lexical emptyFS noLLM "study_file_contents" [("path", "../secrets")] (by decide)

/-! ## C5 — tool dispatcher -/

/-- C5 counterexample: an invocation named `made_up_tool` — neither of the
two registered names — executes the `study_file_contents` handler: it reads
the file and produces the study result, so a tool handler does run. -/
theorem C5_unknown_name_cex :
    runTool fsF llmConst "made_up_tool" [("path", "f.txt"), ("question", "q?")] =
      (.ok "study_file_contents f.txt results\nQuestion: q?\nAnswer: ANSWER",
       [FSOp.openFile "f.txt", FSOp.openFile "f.txt"]) := by
  decide

/-- C5 (amended): the dispatcher tests only for `browse_directory`; every
invocation with any other name — `study_file_contents` or unknown — falls
through to the `study_file_contents` handler. -/
theorem C5_dispatch_fallthrough (fs : FS) (llm : List Nat → String → Except String String)
    (name : String) (params : List (String × String)) (h : name ≠ "browse_directory") :
    runTool fs llm name params = studyFile fs llm params ∧
    runTool fs llm "browse_directory" params = browseDir fs params := by
  unfold runTool
  simp [h]

/-- C5 witness: the two branches at the registered names. -/
theorem C5_dispatch_fallthrough_witness :
    runTool emptyFS noLLM "study_file_contents" [] = studyFile emptyFS noLLM [] ∧
    runTool emptyFS noLLM "browse_directory" [] = browseDir emptyFS [] :=
  C5_dispatch_fallthrough emptyFS noLLM "study_file_contents" [] (by decide)

/-! ## C7 — file classifier -/

/-- C7 counterexample: the leading bytes of an empty file (the empty byte
sequence) are valid UTF-8, yet the classifier does not classify the file as
`text` — Go `File.Read` returns `(0, io.EOF)` on an empty file, so `fileType`
returns the read-error text instead. -/
theorem C7_empty_file_cex :
    utf8Valid (([] : List Nat).take 512) = true ∧
    (fileType fsEmptyFile "empty.txt").1 = "Error reading file header: EOF" ∧
    (fileType fsEmptyFile "empty.txt").1 ≠ "text" := by
  decide

/-- C7 (amended): for every non-empty readable file the classifier examines
the leading bytes (first 512, or fewer for a shorter file) and returns
`text` exactly when they are valid UTF-8 and `binary` otherwise; an empty or
unopenable file instead yields an error string. -/
theorem C7_classifier (fs : FS) (path : String) (contents : List Nat)
    (hf : fs.findFile path = some contents) (hne : contents ≠ []) :
    (fileType fs path).1 =
      (if utf8Valid (contents.take 512) then "text" else "binary") := by
  unfold fileType
  rw [hf]
  by_cases hu : utf8Valid (contents.take 512) = true
  · simp [List.length_eq_zero, hne, hu]
  · simp [List.length_eq_zero, hne, hu]

/-- C7 witness: the five-byte ASCII file is classified `text`. -/
theorem C7_classifier_witness :
    (fileType fsF "f.txt").1 =
      (if utf8Valid (helloBytes.take 512) then "text" else "binary") :=
  C7_classifier fsF "f.txt" helloBytes (by decide) (by decide)

/-! ## C10 — study of a missing file -/

/-- C10: when `study_file_contents` gets a sandbox-admissible path at which
no file exists, the classifier returns the open-error text as the detected
type; since that is not `text`, the tool reports the permanent error
`Not a text file (detected: Error opening file: ...)` rather than a
file-not-found error, having only attempted the open. -/
theorem C10_missing_file (fs : FS) (llm : List Nat → String → Except String String)
    (params : List (String × String))
    (hl : goIsLocal (getParam params "path") = true)
    (hf : fs.findFile (getParam params "path") = none) :
    runTool fs llm "study_file_contents" params =
      (.error ("Not a text file (detected: " ++
         ("Error opening file: open " ++ getParam params "path" ++
           ": no such file or directory") ++ ")"),
       [FSOp.openFile (getParam params "path")]) := by
  have hne : ¬ (("Error opening file: open " ++ getParam params "path" ++
      ": no such file or directory") = "text") := by
    intro h
    have hlen := congrArg String.length h
    rw [String.length_append, String.length_append] at hlen
    have h1 : ("Error opening file: open ").length = 25 := by decide
    have h2 : (": no such file or directory").length = 27 := by decide
    have h3 : ("text").length = 4 := by decide
    omega
  unfold runTool studyFile fileType
  simp [hl, hf, hne]

/-- C10 witness: asking about the absent `ghost.txt`. -/
theorem C10_missing_file_witness :
    runTool emptyFS noLLM "study_file_contents" [("path", "ghost.txt")] =
      (.error ("Not a text file (detected: " ++
         ("Error opening file: open " ++ getParam [("path", "ghost.txt")] "path" ++
           ": no such file or directory") ++ ")"),
       [FSOp.openFile (getParam [("path", "ghost.txt")] "path")]) :=
  C10_missing_file emptyFS noLLM [("path", "ghost.txt")] (by decide) (by decide)

/-! ## C2 — thought extraction -/

/-- The last-occurrence index returned by `lastIndexOf` really is an
occurrence: the pattern starts there. -/
theorem lastIndexOf_isPrefixOf {s pat : List Char} {i : Nat}
    (h : lastIndexOf s pat = some i) : pat.isPrefixOf (s.drop i) = true := by
  unfold lastIndexOf at h
  have hm := List.mem_of_getLast?_eq_some h
  have hfi := List.mem_filter.mp hm
  simpa using hfi.2

/-- Taking `l₁.length + m` elements of `l₁ ++ l₂` keeps `l₁` whole. -/
theorem take_append_add {α : Type} (l₁ l₂ : List α) (m : Nat) :
    (l₁ ++ l₂).take (l₁.length + m) = l₁ ++ l₂.take m := by
  induction l₁ with
  | nil => simp
  | cons a t ih =>
    have hidx : (a :: t).length + m = (t.length + m) + 1 := by
      simp
      omega
    rw [hidx, List.cons_append, List.take_succ_cons, ih]
    rfl

/-- C2 counterexample: on content `abc</think>def` the marker occurs last at
byte index 3, and the extracted thoughts are `abc</think` — the split keeps
the marker only up to its seventh byte, dropping the closing `>` — so the
thoughts differ from "everything up to and including the marker, trimmed". -/
theorem C2_marker_cut_cex :
    lastIndexOf ("abc</think>def".data) thinkMarker = some 3 ∧
    (splitThoughts ("abc</think>def".data)).thoughts = "abc</think".data ∧
    (splitThoughts ("abc</think>def".data)).thoughts ≠
      trimSpace (("abc</think>def".data).take (3 + thinkMarker.length)) := by
  decide

/-- C2 (amended): when the content contains the marker `</think>` with last
occurrence at index `i`, the thoughts are the trimmed prefix up to and
including all but the final byte of the marker (bytes `[0, i+7)`, ending in
`</think` without `>`), and the visible content is everything after the full
marker; re-inserting the dropped `>` between the two untrimmed halves
reconstructs the original content.  Without the marker, the thoughts are the
fixed sentinel and the content is returned verbatim. -/
theorem C2_thought_split (c : List Char) :
    (∀ i, lastIndexOf c thinkMarker = some i →
      splitThoughts c =
        { content := c.drop (i + 8), thoughts := trimSpace (c.take (i + 7)) } ∧
      c.take (i + 7) ++ '>' :: c.drop (i + 8) = c) ∧
    (lastIndexOf c thinkMarker = none →
      splitThoughts c = { content := c, thoughts := noThoughts }) := by
  constructor
  · intro i h
    refine ⟨by unfold splitThoughts; rw [h], ?_⟩
    have hpre := lastIndexOf_isPrefixOf h
    have hp : thinkMarker <+: c.drop i := List.isPrefixOf_iff_prefix.mp hpre
    obtain ⟨t, ht⟩ := hp
    have hmlen : thinkMarker.length = 8 := by decide
    have hlen : i + 8 ≤ c.length := by
      have h1 : (c.drop i).length = c.length - i := List.length_drop i c
      have h2 : (thinkMarker ++ t).length = 8 + t.length := by
        rw [List.length_append, hmlen]
      rw [ht] at h2
      omega
    have hdrop : c.drop (i + 8) = t := by
      have hdd : c.drop (i + 8) = (c.drop i).drop 8 := by
        rw [List.drop_drop]
      rw [hdd, ← ht]
      exact List.drop_left' hmlen
    have hm7 : thinkMarker = "</think".data ++ ['>'] := by decide
    have htki : (c.take i).length = i := by
      rw [List.length_take]
      omega
    have htake : c.take (i + 7) = c.take i ++ "</think".data := by
      conv_lhs => rw [(List.take_append_drop i c).symm]
      have hidx : i + 7 = (c.take i).length + 7 := by rw [htki]
      rw [hidx, take_append_add, ← ht, hm7, List.append_assoc]
      rw [List.take_left' (by decide : ("</think".data).length = 7)]
    calc c.take (i + 7) ++ '>' :: c.drop (i + 8)
        = (c.take i ++ "</think".data) ++ '>' :: t := by rw [htake, hdrop]
      _ = c.take i ++ ("</think".data ++ '>' :: t) := by rw [List.append_assoc]
      _ = c.take i ++ (thinkMarker ++ t) := by rw [hm7]; simp
      _ = c.take i ++ c.drop i := by rw [ht]
      _ = c := List.take_append_drop i c
  · intro h
    unfold splitThoughts
    rw [h]

/-- C2 witness: the split of `x</think>y` at the marker occurrence at 1. -/
theorem C2_thought_split_witness :
    splitThoughts ("x</think>y".data) =
      { content := ("x</think>y".data).drop (1 + 8),
        thoughts := trimSpace (("x</think>y".data).take (1 + 7)) } ∧
    ("x</think>y".data).take (1 + 7) ++ '>' :: ("x</think>y".data).drop (1 + 8) =
      "x</think>y".data :=
  (C2_thought_split ("x</think>y".data)).1 1 (by decide)

/-! ## C3 — rate-limit retry -/

/-- The assistant message used by the C3 witness. -/
def asstMsg : ChatMessage :=
  { role := "assistant", content := "ready", toolCalls := [], toolCallID := "" }

/-- The decoded 200 body used by the C3 witness. -/
def okBody : DecodedBody :=
  { choices := [{ message := asstMsg }],
    usage := { promptTokens := 1, completionTokens := 1 } }

/-- C3: every 429 answer adds exactly one sleep and one extra request and is
never surfaced — the outcome is the outcome on the remaining answers; every
non-2xx status other than 429 fails immediately with `API error:` and the
status text after a single request; and the scenario 429, 429, 200 sleeps
exactly twice and returns the decoded first choice (content split at the
thought marker) after exactly three requests. -/
theorem C3_rate_limit_retry :
    (∀ text body rest, sendChatRequest (.resp 429 text body :: rest) =
      { requests := (sendChatRequest rest).requests + 1,
        sleeps := (sendChatRequest rest).sleeps + 1,
        result := (sendChatRequest rest).result }) ∧
    (∀ code text body rest, ¬ (200 ≤ code ∧ code < 300) → code ≠ 429 →
      sendChatRequest (.resp code text body :: rest) =
        { requests := 1, sleeps := 0, result := .error ("API error: " ++ text) }) ∧
    (∀ t1 b1 t2 b2 msg u,
      sendChatRequest
        [.resp 429 t1 b1, .resp 429 t2 b2,
         .resp 200 "200 OK" (.ok { choices := [{ message := msg }], usage := u })] =
        { requests := 3, sleeps := 2,
          result := .ok ({ msg with content := (splitThoughtsStr msg.content).1 },
            (splitThoughtsStr msg.content).2) }) := by
  refine ⟨?_, ?_, ?_⟩
  · intro text body rest
    rfl
  · intro code text body rest h1 h2
    have hc : ¬ code = 200 := by omega
    unfold sendChatRequest
    simp [h2, hc]
  · intro t1 b1 t2 b2 msg u
    rfl

/-- C3 witness: the 429, 429, 200 scenario on a concrete message. -/
theorem C3_rate_limit_retry_witness :
    sendChatRequest
      [.resp 429 "429 Too Many Requests" (.fail "ignored"),
       .resp 429 "429 Too Many Requests" (.fail "ignored"),
       .resp 200 "200 OK" (.ok okBody)] =
      { requests := 3, sleeps := 2,
        result := .ok ({ asstMsg with content := (splitThoughtsStr asstMsg.content).1 },
          (splitThoughtsStr asstMsg.content).2) } :=
  C3_rate_limit_retry.2.2 "429 Too Many Requests" (.fail "ignored")
    "429 Too Many Requests" (.fail "ignored") asstMsg
    { promptTokens := 1, completionTokens := 1 }

/-! ## C4 — one tool message per tool call -/

/-- A dispatcher that fails every call, used by witnesses. -/
def rtErr : String → String → Except String String :=
  fun n _ => .error ("unknown tool " ++ n)

/-- A tool call used by concrete loop scenarios. -/
def tcA : ToolCall :=
  { id := "call_1", type := "function",
    function := { name := "browse_directory", arguments := "" } }

/-- C4: the tool-execution loop appends exactly one tool-role message per
tool call, in issue order, with `tool_call_id` equal to that call's id; and
when the dispatcher errors, the message content is the error text prefixed
`Error: ` (the loop is not aborted — a message is still produced). -/
theorem C4_tool_results (rt : String → String → Except String String) (tcs : List ToolCall) :
    ((execToolCalls rt tcs).map (fun m => m.toolCallID) = tcs.map (fun tc => tc.id)) ∧
    ((execToolCalls rt tcs).map (fun m => m.role) = tcs.map (fun _ => "tool")) ∧
    (∀ (i : Nat) (tc : ToolCall), tcs[i]? = some tc →
      (execToolCalls rt tcs)[i]? =
        some { role := "tool", content := dispatchResult rt tc,
               toolCalls := [], toolCallID := tc.id }) ∧
    (∀ tc e, rt tc.function.name tc.function.arguments = .error e →
      dispatchResult rt tc = "Error: " ++ e) := by
  refine ⟨?_, ?_, ?_, ?_⟩
  · unfold execToolCalls
    rw [List.map_map]
    rfl
  · unfold execToolCalls
    rw [List.map_map]
    rfl
  · intro i tc h
    unfold execToolCalls
    rw [List.getElem?_map, h]
    rfl
  · intro tc e h
    unfold dispatchResult
    rw [h]

/-- C4 witness: a failing dispatcher still yields one id-matching message. -/
theorem C4_tool_results_witness :
    (execToolCalls rtErr [tcA]).map (fun m => m.toolCallID) =
      [tcA].map (fun tc => tc.id) :=
  (C4_tool_results rtErr [tcA]).1

/-! ## C6 — study pagination -/

/-- A planning response with non-empty content and one pending tool call. -/
def msgDoneTc : ChatMessage :=
  { role := "assistant", content := "done", toolCalls := [tcA], toolCallID := "" }

/-- A planning response with non-empty content and no tool calls. -/
def msgDone : ChatMessage :=
  { role := "assistant", content := "done", toolCalls := [], toolCallID := "" }

/-- A loop state with an active mission and empty transcript. -/
def stCount : LoopState := { mission := "count files", messages := [] }

/-- C8 counterexample: a planning response carrying non-empty content
together with one tool call still resets the mission to empty — the loop
checks only the content. -/
theorem C8_reset_with_tools_cex :
    msgDoneTc.content ≠ "" ∧
    msgDoneTc.toolCalls ≠ [] ∧
    (loopBody rtErr stCount msgDoneTc).mission = "" := by
  decide

/-- C8 (amended): the mission is reset to empty exactly when the planning
response carries non-empty content, regardless of pending tool calls; the
transcript always grows by the assistant message followed by one tool message
per tool call. -/
theorem C8_mission_reset (rt : String → String → Except String String)
    (st : LoopState) (msg : ChatMessage) :
    (loopBody rt st msg).mission = (if msg.content = "" then st.mission else "") ∧
    (loopBody rt st msg).messages =
      (st.messages ++ [msg]) ++ execToolCalls rt msg.toolCalls := by
  exact ⟨rfl, rfl⟩

/-- C8 witness: a non-empty final answer with no tool calls clears the
mission. -/
theorem C8_mission_reset_witness :
    (loopBody rtErr stCount msgDone).mission =
      (if msgDone.content = "" then stCount.mission else "") :=
  (C8_mission_reset rtErr stCount msgDone).1

/-! ## C9 — planning-call error -/

/-- C9 counterexample: a failing planning call does not return control to the
top-level loop — the `return` statement leaves `main`, terminating the
process (modelled as `exitProcess`). -/
theorem C9_planning_error_cex :
    planningStep rtErr stCount (.error "boom") = LoopOutcome.exitProcess "boom" := by
  decide

/-- C9 (amended): whenever the planning call returns an error, the program
prints it and returns from `main`, ending the process — the current mission
is abandoned and no further planning iteration or prompt occurs. -/
theorem C9_planning_error_exits (rt : String → String → Except String String)
    (st : LoopState) (e : String) :
    planningStep rt st (.error e) = LoopOutcome.exitProcess e := by
  rfl

/-- C9 witness: the exit on a concrete failing planning call. -/
theorem C9_planning_error_exits_witness :
    planningStep rtErr stCount (.error "API error: 500") =
      LoopOutcome.exitProcess "API error: 500" :=
  C9_planning_error_exits rtErr stCount "API error: 500"

end TinyAgent
